import Mathlib

/-!
Shallow embedding of the repository's three demo scripts
(`ex1/data_stream.py` stream hierarchy and `ex2/nexus_pipeline.py`
three-stage pipeline) and proofs of the frozen claims about them.

Embedding conventions:
* Python runtime values that the code inspects are modelled by `PyVal`
  (numbers over ℤ, strings, lists, dicts, `None`).  Python floats appear in
  the demo data only; every claim is about integer data, string shapes and
  control flow, so numbers are modelled over ℤ and the one float
  computation (the sensor mean) is modelled exactly over ℚ.
* `print` calls are presentation-only side effects and are dropped; each
  function is modelled by its return value.
* Code, such as a stage's `process`, that may raise is modelled in
  `Except String PyVal`; a `try/except` whose body is total is modelled by
  the body alone.
-/

/-- Model of the Python values the scripts inspect at runtime:
numbers (over ℤ), strings, lists, dicts with string keys, and `None`. -/
inductive PyVal where
  | num (n : Int)
  | str (s : String)
  | list (elems : List PyVal)
  | dict (fields : List (String × PyVal))
  | none

/-- Substring test on character lists: Python's `needle in hay` for
strings (true when `needle` occurs contiguously in `hay`). -/
def pySubstr (needle : List Char) : List Char → Bool
  | [] => needle.isEmpty
  | c :: rest => needle.isPrefixOf (c :: rest) || pySubstr needle rest

/-- Python's `needle in hay` on strings. -/
def pyInStr (needle hay : String) : Bool :=
  pySubstr needle.toList hay.toList

/-- Python's `repr` rendered for `PyVal` (used by `str` on containers). -/
def pyReprOf : PyVal → String
  | .num n => toString n
  | .str s => "\x27" ++ s ++ "\x27"
  | .list xs => "[" ++ String.intercalate ", " (xs.attach.map (fun e => pyReprOf e.1)) ++ "]"
  | .dict fs => "\x7b" ++ String.intercalate ", "
      (fs.attach.map (fun e => "\x27" ++ e.1.1 ++ "\x27: " ++ pyReprOf e.1.2)) ++ "\x7d"
  | .none => "None"
decreasing_by
  · have := List.sizeOf_lt_of_mem e.2
    simp only [PyVal.list.sizeOf_spec]
    omega
  · have h1 := List.sizeOf_lt_of_mem e.2
    have h2 : sizeOf e.1.2 < sizeOf e.1 := by
      obtain ⟨a, b⟩ := e.1
      simp only [Prod.mk.sizeOf_spec]
      omega
    simp only [PyVal.dict.sizeOf_spec]
    omega

/-- Python's `str(v)` for `PyVal`. -/
def pyToStr (v : PyVal) : String :=
  match v with
  | .str s => s
  | _ => pyReprOf v

/-- Python's `d.get(key)` on a dict: the value, or `None` when absent. -/
def dictGet (fields : List (String × PyVal)) (key : String) : PyVal :=
  match fields.lookup key with
  | some v => v
  | Option.none => PyVal.none

/-! ## ex2/nexus_pipeline.py -/

/-- `InputStage.process`: every branch only prints and then returns
`data` unchanged. -/
def InputStage.process (data : PyVal) : PyVal := data

/-- `TransformStage.process`: dicts pass through ("enriched"); strings
containing `","` are split on it into a list of strings; everything else
passes through. -/
def TransformStage.process (data : PyVal) : PyVal :=
  match data with
  | .dict _ => data
  | .str s =>
      if pyInStr "," s then .list ((s.splitOn ",").map PyVal.str)
      else data
  | _ => data

/-- `OutputStage.process`: renders dicts from their `value`/`unit` fields,
lists via `len(data)-2`, strings as a fixed summary, and anything else via
`str(data)`. -/
def OutputStage.process (data : PyVal) : PyVal :=
  match data with
  | .dict fs => .str ("Processed temperature reading: " ++ pyToStr (dictGet fs "value")
      ++ "°" ++ pyToStr (dictGet fs "unit") ++ " (Normal range)")
  | .list xs => .str ("User activity logged: " ++ toString ((xs.length : Int) - 2)
      ++ " actions processed")
  | .str _ => .str "Stream summary: 5 readings, avg: 22.1°C"
  | _ => .str (pyToStr data)

/-- A pipeline stage: `process` may raise (modelled in `Except`). -/
abbrev Stage : Type := PyVal → Except String PyVal

/-- The guard `isinstance(current_data, str) and "FAIL_TEST" in current_data`
from `run_pipeline`. -/
def is_fail_test (v : PyVal) : Bool :=
  match v with
  | .str s => pyInStr "FAIL_TEST" s
  | _ => false

/-- The fixed recovery value returned by `run_pipeline`'s `except` branch. -/
def recoveryResult : PyVal :=
  .str "Recovery successful: Pipeline restored, processing resumed"

/-- The `for i, stage in enumerate(self.stages, 1)` loop of
`ProcessingPipeline.run_pipeline`: at index 2 a sentinel input raises
`ValueError`; otherwise the stage runs; any exception is caught and the
loop returns the fixed recovery value. -/
def ProcessingPipeline.runStages (i : Nat) (stages : List Stage) (cur : PyVal) :
    Except String PyVal :=
  match stages with
  | [] => .ok cur
  | stage :: rest =>
      match (if i == 2 && is_fail_test cur then Except.error "Invalid data format"
             else stage cur) with
      | .ok next => ProcessingPipeline.runStages (i + 1) rest next
      | .error _ => .ok recoveryResult

/-- `ProcessingPipeline.run_pipeline`: run the stages in order starting at
index 1. -/
def ProcessingPipeline.run_pipeline (stages : List Stage) (data : PyVal) :
    Except String PyVal :=
  ProcessingPipeline.runStages 1 stages data

/-- Lift a total `process` method to a `Stage` (it never raises). -/
def pureStage (f : PyVal → PyVal) : Stage := fun d => .ok (f d)

/-- The pipeline built in the demo: Input, Transform, Output. -/
def threeStages : List Stage :=
  [pureStage InputStage.process, pureStage TransformStage.process,
   pureStage OutputStage.process]

/-! ## ex1/data_stream.py -/

/-- `isinstance(x, (int, float))` projected to the numeric value. -/
def toNum : PyVal → Option Int
  | .num n => some n
  | _ => Option.none

/-- `isinstance(x, (int, float))`. -/
def isNumeric (x : PyVal) : Bool := (toNum x).isSome

/-- Round a rational to the nearest integer, ties to even — the rounding
CPython's fixed-point float formatting uses, modelled exactly over ℚ. -/
def ratRoundHalfEven (x : Rat) : Int :=
  let f : Int := x.floor
  let r : Rat := x - (f : Rat)
  if r < 1 / 2 then f
  else if 1 / 2 < r then f + 1
  else if f % 2 = 0 then f else f + 1

/-- Python's `f"{x:.1f}"` modelled over ℚ: one digit after the point. -/
def formatFixed1 (x : Rat) : String :=
  let t : Int := ratRoundHalfEven (10 * x)
  (if t < 0 then "-" else "") ++ toString (t.natAbs / 10) ++ "." ++ toString (t.natAbs % 10)

/-- `SensorStream.process_batch`: empty batch and no-valid-numeric-item
batch short-circuit before the mean; otherwise count and mean of the
numeric items.  The `try/except` wrapper is dead code (the body is total)
and is dropped. -/
def SensorStream.process_batch (data_batch : List PyVal) : String :=
  if data_batch.isEmpty then "No data processed"
  else
    let valid_data := data_batch.filterMap toNum
    let count := valid_data.length
    if count = 0 then "No valid numeric data"
    else
      let avg : Rat := (valid_data.sum : Int) / (count : Rat)
      "Sensor data: " ++ toString count ++ " readings processed, avg temp: "
        ++ formatFixed1 avg ++ "°C"

/-- `SensorStream.filter_data`: for `"High-priority"`, keep numeric items
with `x > 50 or x < 0`; otherwise return the batch unchanged. -/
def SensorStream.filter_data (data_batch : List PyVal) (criteria : Option String) :
    List PyVal :=
  if criteria == some "High-priority" then
    data_batch.filter (fun x =>
      match toNum x with
      | some n => decide (50 < n) || decide (n < 0)
      | Option.none => false)
  else data_batch

/-- `TransactionStream.process_batch`: count and signed sum of the numeric
items; `"+"` sign when the sum is `>= 0`.  The `try/except` wrapper is dead
code and is dropped. -/
def TransactionStream.process_batch (data_batch : List PyVal) : String :=
  let valid_data := data_batch.filterMap toNum
  let count := valid_data.length
  let net_flow := valid_data.sum
  let sign := if net_flow ≥ 0 then "+" else ""
  "Transaction data: " ++ toString count ++ " operations, net flow: "
    ++ sign ++ toString net_flow ++ " units"

/-- `TransactionStream.filter_data`: for `"High-priority"`, keep numeric
items with `abs(x) >= 100`; otherwise return the batch unchanged. -/
def TransactionStream.filter_data (data_batch : List PyVal) (criteria : Option String) :
    List PyVal :=
  if criteria == some "High-priority" then
    data_batch.filter (fun x =>
      match toNum x with
      | some n => decide (100 ≤ |n|)
      | Option.none => false)
  else data_batch

/-- The test `isinstance(x, str) and "error" in x.lower()`. -/
def isErrorEvent (x : PyVal) : Bool :=
  match x with
  | .str s => pyInStr "error" s.toLower
  | _ => false

/-- `EventStream.process_batch`: total count and count of items containing
the case-insensitive `"error"` marker.  The `try/except` wrapper is dead
code and is dropped. -/
def EventStream.process_batch (data_batch : List PyVal) : String :=
  let count := data_batch.length
  let errors := (data_batch.filter isErrorEvent).length
  "Event data: " ++ toString count ++ " events, " ++ toString errors ++ " error detected"

/-- `EventStream.filter_data`: for `"High-priority"`, keep items containing
the case-insensitive `"error"` marker; otherwise return the batch unchanged. -/
def EventStream.filter_data (data_batch : List PyVal) (criteria : Option String) :
    List PyVal :=
  if criteria == some "High-priority" then data_batch.filter isErrorEvent
  else data_batch

/-- The concrete `DataStream` subclasses registered with the processor. -/
inductive StreamKind where
  | sensor
  | transaction
  | event
deriving DecidableEq

/-- A registered `DataStream` object: its `stream_id` and which concrete
subclass it is (which fixes its `process_batch` override). -/
structure StreamObj where
  stream_id : String
  kind : StreamKind
deriving DecidableEq

/-- Virtual dispatch of `stream.process_batch(data)` on the subclass. -/
def StreamObj.process_batch (s : StreamObj) (data_batch : List PyVal) : String :=
  match s.kind with
  | .sensor => SensorStream.process_batch data_batch
  | .transaction => TransactionStream.process_batch data_batch
  | .event => EventStream.process_batch data_batch

/-- `StreamProcessor.process_streams`: for each registered stream whose
`stream_id` is a key of `data_map`, process that batch; the printed
results are modelled as the returned list, in iteration order. -/
def StreamProcessor.process_streams (streams : List StreamObj)
    (data_map : List (String × List PyVal)) : List String :=
  streams.filterMap (fun stream =>
    (data_map.lookup stream.stream_id).map (fun data => stream.process_batch data))

/-! ## Theorems -/

/-- Every run of the stage loop ends in `ok`, whatever the stages do. -/
lemma runStages_isOk (stages : List Stage) : ∀ (i : Nat) (cur : PyVal),
    ∃ v, ProcessingPipeline.runStages i stages cur = Except.ok v := by
  induction stages with
  | nil => intro i cur; exact ⟨cur, rfl⟩
  | cons s rest ih =>
      intro i cur
      rw [ProcessingPipeline.runStages]
      split
      · exact ih (i + 1) _
      · exact ⟨recoveryResult, rfl⟩

/-- C1: `ProcessingPipeline.run_pipeline` never raises past its own
boundary: for every input and every list of stages the result is an `ok`
value, and whenever a stage raises at any index the loop returns the fixed
Recovery result instead of propagating the fault. -/
theorem run_pipeline_never_raises :
    (∀ (stages : List Stage) (data : PyVal),
        ∃ v, ProcessingPipeline.run_pipeline stages data = Except.ok v) ∧
    (∀ (i : Nat) (stage : Stage) (rest : List Stage) (cur : PyVal) (e : String),
        stage cur = Except.error e →
        ProcessingPipeline.runStages i (stage :: rest) cur = Except.ok recoveryResult) := by
  constructor
  · intro stages data
    exact runStages_isOk stages 1 data
  · intro i stage rest cur e h
    rw [ProcessingPipeline.runStages]
    by_cases hc : (i == 2 && is_fail_test cur) = true
    · simp [hc]
    · simp [hc, h]

/-- Witness for C1 at a concrete pipeline and a concrete raising stage. -/
theorem run_pipeline_never_raises_witness :
    (∃ v, ProcessingPipeline.run_pipeline threeStages (PyVal.str "FAIL_TEST") = Except.ok v) ∧
    ProcessingPipeline.runStages 1 [fun _ => Except.error "boom"] (PyVal.str "x") =
      Except.ok recoveryResult :=
  ⟨run_pipeline_never_raises.1 threeStages (PyVal.str "FAIL_TEST"),
   run_pipeline_never_raises.2 1 (fun _ => Except.error "boom") [] (PyVal.str "x") "boom" rfl⟩

/-- C2: on the sentinel input `"FAIL_TEST"` the three-stage pipeline
faults deterministically when stage index 2 is reached and returns exactly
the fixed Recovery string; the result does not depend on the stage-2 and
stage-3 functions at all, so neither is executed and nothing is retried. -/
theorem run_pipeline_fail_test_recovery :
    ∀ (t o : Stage),
      ProcessingPipeline.run_pipeline [pureStage InputStage.process, t, o]
          (PyVal.str "FAIL_TEST") = Except.ok recoveryResult ∧
      recoveryResult = PyVal.str "Recovery successful: Pipeline restored, processing resumed" :=
  fun _ _ => ⟨rfl, rfl⟩

/-- C3: on a non-sentinel input the three-stage pipeline executes stages
1 → 2 → 3 in order and returns the Output stage applied to the Transform
stage applied to the Input stage of the data. -/
theorem run_pipeline_normal_order (d : PyVal) (h : is_fail_test d = false) :
    ProcessingPipeline.run_pipeline threeStages d =
      Except.ok (OutputStage.process (TransformStage.process (InputStage.process d))) := by
  simp [ProcessingPipeline.run_pipeline, ProcessingPipeline.runStages, threeStages,
    pureStage, InputStage.process, h]

/-- Witness for C3 at the concrete non-sentinel input `"user login"`. -/
theorem run_pipeline_normal_order_witness :
    is_fail_test (PyVal.str "user login") = false ∧
    ProcessingPipeline.run_pipeline threeStages (PyVal.str "user login") =
      Except.ok (OutputStage.process (TransformStage.process
        (InputStage.process (PyVal.str "user login")))) :=
  ⟨rfl, run_pipeline_normal_order (PyVal.str "user login") rfl⟩

/-- C4: `SensorStream.process_batch` short-circuits on batches with no
valid numeric item: the empty batch yields the "No data processed" result
and any batch with zero valid numeric items yields one of the two no-data
results, so the mean division is never reached. -/
theorem sensor_process_batch_no_data (batch : List PyVal)
    (h : batch.filterMap toNum = []) :
    SensorStream.process_batch [] = "No data processed" ∧
    (SensorStream.process_batch batch = "No data processed" ∨
     SensorStream.process_batch batch = "No valid numeric data") := by
  refine ⟨rfl, ?_⟩
  by_cases he : batch.isEmpty
  · left
    simp [SensorStream.process_batch, he]
  · right
    simp [SensorStream.process_batch, he, h]

/-- Witness for C4 at a concrete all-non-numeric batch. -/
theorem sensor_process_batch_no_data_witness :
    List.filterMap toNum [PyVal.str "x"] = [] ∧
    (SensorStream.process_batch [PyVal.str "x"] = "No data processed" ∨
     SensorStream.process_batch [PyVal.str "x"] = "No valid numeric data") :=
  ⟨rfl, (sensor_process_batch_no_data [PyVal.str "x"] rfl).2⟩

/-- C5 counterexample: on the demo's post-split list of three items,
`OutputStage.process` renders the count 1 (`len(data) - 2`), not the
number of items 3. -/
theorem output_stage_list_count_counterexample :
    OutputStage.process
        (PyVal.list [PyVal.str "user", PyVal.str " action", PyVal.str " timestamp"]) =
      PyVal.str "User activity logged: 1 actions processed" ∧
    List.length [PyVal.str "user", PyVal.str " action", PyVal.str " timestamp"] = 3 ∧
    OutputStage.process
        (PyVal.list [PyVal.str "user", PyVal.str " action", PyVal.str " timestamp"]) ≠
      PyVal.str "User activity logged: 3 actions processed" := by
  refine ⟨rfl, rfl, ?_⟩
  intro h
  have h1 : ("User activity logged: 1 actions processed" : String) =
      "User activity logged: 3 actions processed" := PyVal.str.inj h
  simp at h1

/-- C5 (amended): for a list, `OutputStage.process` renders `len(data) - 2`
as the count, not the number of items. -/
theorem output_stage_list_count_amended (xs : List PyVal) :
    OutputStage.process (PyVal.list xs) =
      PyVal.str ("User activity logged: " ++ toString ((xs.length : Int) - 2)
        ++ " actions processed") := rfl

/-- C6: the `"High-priority"` sensor filter keeps exactly the numeric items
outside the closed interval `[0, 50]`, preserving order, and in particular
maps `[100, 20, 22, -10]` to `[100, -10]`. -/
theorem sensor_filter_high_priority (batch : List PyVal) :
    SensorStream.filter_data batch (some "High-priority") =
      batch.filter (fun x =>
        match toNum x with
        | some n => decide (¬ (0 ≤ n ∧ n ≤ 50))
        | Option.none => false) ∧
    SensorStream.filter_data [PyVal.num 100, PyVal.num 20, PyVal.num 22, PyVal.num (-10)]
        (some "High-priority") = [PyVal.num 100, PyVal.num (-10)] := by
  refine ⟨?_, rfl⟩
  unfold SensorStream.filter_data
  rw [if_pos (by rfl)]
  apply List.filter_congr
  intro x _
  cases hx : toNum x with
  | none => rfl
  | some n =>
      simp only [← Bool.decide_or, decide_eq_decide]
      omega

/-- C7: `TransactionStream.process_batch` reports the count of the valid
numeric items and their signed sum, with an explicit `"+"` sign whenever
the sum is non-negative; in particular `[100, -150, 75]` yields count 3
and net flow `+25`. -/
theorem transaction_process_batch_spec (batch : List PyVal) :
    TransactionStream.process_batch batch =
      "Transaction data: " ++ toString (batch.filterMap toNum).length ++
      " operations, net flow: " ++
      (if 0 ≤ (batch.filterMap toNum).sum then "+" else "") ++
      toString (batch.filterMap toNum).sum ++ " units" ∧
    TransactionStream.process_batch [PyVal.num 100, PyVal.num (-150), PyVal.num 75] =
      "Transaction data: 3 operations, net flow: +25 units" :=
  ⟨rfl, rfl⟩

/-- C10: `TransactionStream.process_batch` has no dedicated no-data branch:
on any batch with zero valid numeric items (in particular the empty batch)
it returns the normal summary with count 0 and net flow `+0`, unlike
`SensorStream.process_batch`, which returns "No data processed" on `[]`. -/
theorem transaction_process_batch_empty (batch : List PyVal)
    (h : batch.filterMap toNum = []) :
    TransactionStream.process_batch batch =
      "Transaction data: 0 operations, net flow: +0 units" ∧
    SensorStream.process_batch [] = "No data processed" ∧
    SensorStream.process_batch [] ≠ TransactionStream.process_batch [] := by
  refine ⟨?_, rfl, by decide⟩
  simp [TransactionStream.process_batch, h]
  rfl

/-- Witness for C10 at the empty batch. -/
theorem transaction_process_batch_empty_witness :
    List.filterMap toNum ([] : List PyVal) = [] ∧
    TransactionStream.process_batch [] =
      "Transaction data: 0 operations, net flow: +0 units" :=
  ⟨rfl, (transaction_process_batch_empty [] rfl).1⟩

/-- C8: for all three stream kinds, `filter_data` is the identity whenever
the criterion is `None` or any string other than `"High-priority"`. -/
theorem filter_data_identity (batch : List PyVal) (criteria : Option String)
    (h : criteria ≠ some "High-priority") :
    SensorStream.filter_data batch criteria = batch ∧
    TransactionStream.filter_data batch criteria = batch ∧
    EventStream.filter_data batch criteria = batch := by
  have hb : (criteria == some "High-priority") = false := by
    simpa using h
  refine ⟨?_, ?_, ?_⟩ <;>
    simp [SensorStream.filter_data, TransactionStream.filter_data,
      EventStream.filter_data, hb]

/-- Witness for C8 at an absent criterion and a concrete batch. -/
theorem filter_data_identity_witness :
    ((Option.none : Option String) ≠ some "High-priority") ∧
    SensorStream.filter_data [PyVal.num 7] Option.none = [PyVal.num 7] ∧
    TransactionStream.filter_data [PyVal.num 7] Option.none = [PyVal.num 7] ∧
    EventStream.filter_data [PyVal.num 7] Option.none = [PyVal.num 7] := by
  have h0 : (Option.none : Option String) ≠ some "High-priority" := by simp
  exact ⟨h0, filter_data_identity [PyVal.num 7] Option.none h0⟩

/-- Dropping the pairs with key `k` from an association list does not
change lookups of any other key. -/
lemma lookup_filter_ne {β : Type} (dm : List (String × β)) (a k : String)
    (h : a ≠ k) :
    (dm.filter (fun p => p.1 != k)).lookup a = dm.lookup a := by
  induction dm with
  | nil => rfl
  | cons p t ih =>
      obtain ⟨b, v⟩ := p
      by_cases hbk : b = k
      · subst hbk
        have ha : (a == b) = false := by simpa using h
        simp [List.filter_cons, List.lookup, ha, ih]
      · have hb : (b != k) = true := by simpa using hbk
        simp only [List.filter_cons, hb, if_pos]
        by_cases hab : (a == b) = true
        · simp [List.lookup, hab]
        · simp only [Bool.not_eq_true] at hab
          simp [List.lookup, hab, ih]

/-- `process_streams` only produces results for registered streams whose
id is a key of the data map. -/
lemma process_streams_only_known (streams : List StreamObj)
    (dm : List (String × List PyVal)) :
    StreamProcessor.process_streams streams dm =
      StreamProcessor.process_streams
        (streams.filter (fun s => (dm.lookup s.stream_id).isSome)) dm := by
  induction streams with
  | nil => rfl
  | cons s t ih =>
      unfold StreamProcessor.process_streams at ih ⊢
      cases hd : dm.lookup s.stream_id with
      | none => simp [List.filterMap_cons, List.filter_cons, hd, ih]
      | some d => simp [List.filterMap_cons, List.filter_cons, hd, ih]

/-- C9: dispatching by identifier is a no-op for unknown identifiers: a
data-map key matching no registered stream can be dropped without changing
the results, and the results come only from registered streams whose
`stream_id` is a key of the data map. -/
theorem process_streams_unknown_id_noop (streams : List StreamObj)
    (dm : List (String × List PyVal)) (k : String) :
    ((∀ s ∈ streams, s.stream_id ≠ k) →
      StreamProcessor.process_streams streams dm =
        StreamProcessor.process_streams streams (dm.filter (fun p => p.1 != k))) ∧
    StreamProcessor.process_streams streams dm =
      StreamProcessor.process_streams
        (streams.filter (fun s => (dm.lookup s.stream_id).isSome)) dm := by
  constructor
  · intro h
    unfold StreamProcessor.process_streams
    apply List.filterMap_congr
    intro s hs
    rw [lookup_filter_ne dm s.stream_id k (h s hs)]
  · exact process_streams_only_known streams dm

/-- Witness for C9: one registered sensor stream and a data map whose only
key matches no registered stream. -/
theorem process_streams_unknown_id_noop_witness :
    (∀ s ∈ [StreamObj.mk "SENSOR_001" StreamKind.sensor], s.stream_id ≠ "UNKNOWN_ID") ∧
    StreamProcessor.process_streams [StreamObj.mk "SENSOR_001" StreamKind.sensor]
        [("UNKNOWN_ID", [PyVal.num 1])] =
      StreamProcessor.process_streams [StreamObj.mk "SENSOR_001" StreamKind.sensor]
        (([("UNKNOWN_ID", [PyVal.num 1])] : List (String × List PyVal)).filter
          (fun p => p.1 != "UNKNOWN_ID")) := by
  have h0 : ∀ s ∈ [StreamObj.mk "SENSOR_001" StreamKind.sensor],
      s.stream_id ≠ "UNKNOWN_ID" := by decide
  exact ⟨h0,
    (process_streams_unknown_id_noop [StreamObj.mk "SENSOR_001" StreamKind.sensor]
      [("UNKNOWN_ID", [PyVal.num 1])] "UNKNOWN_ID").1 h0⟩
